import Mathlib

/-!
Shallow embedding of the document-analysis backend
(`src/backend/server.py` of PurebyteAI/OCR-DocumentAI).

The pipeline is: raw bytes → extracted text → field-extraction request →
raw field map → compliance notes → analysis result.  External engines
(PyPDF2, pytesseract, the LLM service, `json.loads`) are modelled as
explicit parameters describing their behaviour on the single request under
consideration; everything the code of the repository itself does is translated
directly from the source.

Python strings are modelled as Lean `String`s (sequences of code points);
character-level operations (`[:4000]`, `.strip()`, the regex search) go
through `String.toList`.
-/

namespace DocAI

/-- The six-field record produced by parsing the LLM reply
(`server.py` lines 103-112 name exactly these fields).  A field is `none`
when the key is absent from the parsed JSON object or its value is `null`;
the code reads the parsed dict only through `.get(key)`, which returns
`None` in both cases, so the two are identified.  String values are kept
as `some s` (including the empty string, which Python treats as falsy). -/
structure RawFieldMap where
  effective_date : Option String
  insured_party : Option String
  underwriter : Option String
  legal_description : Option String
  exceptions : Option String
  policy_amount : Option String
deriving DecidableEq

/-- The all-`null` fallback map built at `server.py` lines 136-143. -/
def nullFieldMap : RawFieldMap :=
  { effective_date := none, insured_party := none, underwriter := none
  , legal_description := none, exceptions := none, policy_amount := none }

/-- Python truthiness of `analysis_result.get(key)`: `None` (key absent or
value null) and the empty string are falsy; any non-empty string is truthy. -/
def pyTruthy : Option String → Bool
  | none => false
  | some s => !s.isEmpty

/-- Source: `server.py` line 154. -/
def warnEffectiveDate : String :=
  "⚠️ Effective date not found - verify policy activation date"

/-- Source: `server.py` line 157. -/
def warnPolicyAmount : String :=
  "⚠️ Policy amount not identified - confirm coverage limits"

/-- Source: `server.py` line 160. -/
def warnLegalDescription : String :=
  "⚠️ Legal description missing - property boundaries may need verification"

/-- Source: `server.py` line 163. -/
def noteExceptionsReview : String :=
  "✓ Policy exceptions identified - review for potential issues"

/-- Source: `server.py` line 165. -/
def noteStandardCoverage : String :=
  "ℹ️ No exceptions listed - standard coverage applies"

/-- Source: `server.py` line 168. -/
def noteUnderwriter : String :=
  "✓ Underwriter identified - policy issuer confirmed"

/-- Source: `server.py` line 171. -/
def noteGeneric : String :=
  "📋 Document processed - review all fields for accuracy"

/-- Direct translation of `generate_compliance_notes` (`server.py`
lines 149-173): a `notes` accumulator receives conditional appends in
source order and a final unconditional append. -/
def generate_compliance_notes (analysis_result : RawFieldMap) : List String :=
  let notes : List String := []
  let notes := if !pyTruthy analysis_result.effective_date
    then notes ++ [warnEffectiveDate] else notes
  let notes := if !pyTruthy analysis_result.policy_amount
    then notes ++ [warnPolicyAmount] else notes
  let notes := if !pyTruthy analysis_result.legal_description
    then notes ++ [warnLegalDescription] else notes
  let notes := if pyTruthy analysis_result.exceptions
    then notes ++ [noteExceptionsReview] else notes ++ [noteStandardCoverage]
  let notes := if pyTruthy analysis_result.underwriter
    then notes ++ [noteUnderwriter] else notes
  notes ++ [noteGeneric]

/-- The compliance-note rule list as the spec describes it (§4.3): six
independent rules evaluated top-to-bottom with no early exit, each
contributing its note (or nothing) in rule order. -/
def complianceRuleNotes (m : RawFieldMap) : List String :=
  (if pyTruthy m.effective_date then [] else [warnEffectiveDate])
    ++ (if pyTruthy m.policy_amount then [] else [warnPolicyAmount])
    ++ (if pyTruthy m.legal_description then [] else [warnLegalDescription])
    ++ (if pyTruthy m.exceptions then [noteExceptionsReview] else [noteStandardCoverage])
    ++ (if pyTruthy m.underwriter then [noteUnderwriter] else [])
    ++ [noteGeneric]

/-! ## Python string primitives used by the source -/

/-- Characters removed by Python `str.strip()`, restricted to the ASCII
whitespace set (space, tab, LF, CR, vertical tab, form feed).  Python also
strips some further Unicode whitespace; the claims only need that
all-ASCII-whitespace text strips to empty, so the restriction is sound. -/
def pyIsSpace (c : Char) : Bool :=
  c == ' ' || c == '\t' || c == '\n' || c == '\r'
    || c == Char.ofNat 11 || c == Char.ofNat 12

/-- Python `s.strip()`: drop leading and trailing whitespace. -/
def pyStrip (s : String) : String :=
  String.mk (((s.toList.dropWhile pyIsSpace).reverse.dropWhile pyIsSpace).reverse)

/-- Python `s[:n]`: the first `n` characters (code points) of `s`. -/
def pySliceTo (s : String) (n : Nat) : String :=
  String.mk (s.toList.take n)

/-- Model of the DOTALL regex search for a brace-delimited substring at
`server.py` line 130: the leftmost match of a greedy `.*` between literal
opening and closing braces is the
substring running from the first opening brace of `s` to the last closing
brace of `s`, provided that closing brace comes strictly after the opening
one; otherwise there is no match. -/
def braceMatch (s : String) : Option String :=
  let fromOpen := s.toList.dropWhile (fun c => !(c == '{'))
  let upToClose := (fromOpen.reverse.dropWhile (fun c => !(c == '}'))).reverse
  if upToClose.isEmpty then none else some (String.mk upToClose)

/-! ## Error taxonomy

Every failure the endpoint can raise is an `HTTPException`; the constructor
records which raise site fired.  `llmFailure` covers the whole
`except Exception` re-wrap at `server.py` lines 145-147 (missing API key,
service-call failure, and an uncaught `JSONDecodeError` from the fallback
parse all end there as a 500 response). -/
inductive ApiError
  | sizeLimit
  | unsupportedType
  | pdfExtract
  | imageExtract
  | emptyText
  | llmFailure
deriving DecidableEq

/-- Which external pipeline stages a request actually invoked, in order. -/
inductive PipelineCall
  | textExtraction
  | fieldExtraction
deriving DecidableEq

/-! ## External engines

The behaviour of the black-box collaborators on the single request being
analysed.  `jsonParse` stands for `json.loads` specialised to the strings
the code feeds it: `none` when the string is not valid JSON, `some m` when
it is a JSON object read back as the six-field map. -/
structure Env where
  /-- Outcome of `PyPDF2.PdfReader` on the uploaded bytes: the list of
  per-page `extract_text()` results in page order, or a parse failure. -/
  pdfRead : Except Unit (List String)
  /-- Outcome of image decode + `pytesseract.image_to_string`. -/
  ocr : Except Unit String
  /-- Whether `OPENAI_API_KEY` is set in the environment. -/
  hasApiKey : Bool
  /-- Model of `chat.send_message`: maps the submitted user text to the reply
  string, or to a service failure. -/
  llm : String → Except Unit String
  /-- Model of `json.loads` on candidate reply strings. -/
  jsonParse : String → Option RawFieldMap

/-! ## TextExtractor -/

/-- Model of `extract_text_from_pdf` (`server.py` lines 61-71): on reader success,
`text` accumulates the text of each page followed by `"\n"`; any reader
exception becomes an HTTP 400. -/
def extract_text_from_pdf (pdfRead : Except Unit (List String)) :
    Except ApiError String :=
  match pdfRead with
  | .error _ => .error .pdfExtract
  | .ok pages => .ok (pages.foldl (fun text page => text ++ page ++ "\n") "")

/-- Model of `extract_text_from_image` (`server.py` lines 73-86): decode, mode
normalisation and OCR are all inside the black box; any exception becomes
an HTTP 400. -/
def extract_text_from_image (ocr : Except Unit String) :
    Except ApiError String :=
  match ocr with
  | .error _ => .error .imageExtract
  | .ok text => .ok text

/-! ## FieldExtractionClient -/

/-- The user-message text built at `server.py` lines 116-118: a fixed
preamble followed by the extracted text truncated to 4000 characters. -/
def userMessagePreamble : String :=
  "Please analyze this title insurance document text and extract the 6 key fields in JSON format:\n\n"

/-- The `UserMessage` content for a given extracted text. -/
def mkUserMessageText (extracted_text : String) : String :=
  userMessagePreamble ++ pySliceTo extracted_text 4000

/-- Parsing of the LLM reply (`server.py` lines 123-143): try `json.loads`
on the whole reply; on failure search for a brace-delimited substring and
try `json.loads` on it; if no such substring exists return the all-null
map.  A located substring that itself fails to parse raises
`JSONDecodeError`, which is NOT caught here and escapes to the generic
`except Exception` handler (`.error ()`). -/
def parseLlmReply (jsonParse : String → Option RawFieldMap)
    (response : String) : Except Unit RawFieldMap :=
  match jsonParse response with
  | some result => .ok result
  | none =>
    match braceMatch response with
    | some sub =>
      match jsonParse sub with
      | some result => .ok result
      | none => .error ()
    | none => .ok nullFieldMap

/-- Model of `analyze_document_with_openai` (`server.py` lines 88-147): eager
API-key check, service call with the truncated prompt, reply parsing; every
failure is re-wrapped by the `except Exception` handler into an HTTP 500. -/
def analyze_document_with_openai (env : Env) (extracted_text : String) :
    Except ApiError RawFieldMap :=
  if !env.hasApiKey then .error .llmFailure
  else
    match env.llm (mkUserMessageText extracted_text) with
    | .error _ => .error .llmFailure
    | .ok response =>
      match parseLlmReply env.jsonParse response with
      | .ok result => .ok result
      | .error _ => .error .llmFailure

/-! ## DocumentAnalysisOrchestrator -/

/-- The response record assembled at `server.py` lines 223-232.  The
source model also carries a fresh UUID `id` and a creation `timestamp`
(defaults generated per request); both are opaque nondeterministic tokens
with no influence on any other field and are omitted here. -/
structure DocumentAnalysisResult where
  effective_date : Option String
  insured_party : Option String
  underwriter : Option String
  legal_description : Option String
  exceptions : Option String
  policy_amount : Option String
  compliance_notes : List String
  processing_status : String
deriving DecidableEq

/-- The `allowed_types` list (`server.py` lines 189-192). -/
def allowed_types : List String :=
  ["application/pdf", "image/jpeg", "image/jpg", "image/png", "image/tiff", "image/bmp"]

/-- The size guard at `server.py` line 185: Python
`if file.size and file.size > 10 * 1024 * 1024` — a missing (`None`) or
zero declared size is falsy, so only a present non-zero size above the
bound trips the guard. -/
def sizeExceeds : Option Nat → Bool
  | none => false
  | some n => (n != 0) && (n > 10 * 1024 * 1024)

/-- Model of `analyze_document` from the type check onwards (`server.py`
lines 188-237), with the list of external stages actually invoked recorded
alongside the outcome. -/
def afterSizeCheck (content_type : String) (env : Env) :
    Except ApiError DocumentAnalysisResult × List PipelineCall :=
  if content_type ∉ allowed_types then (.error .unsupportedType, [])
  else
    match (if content_type = "application/pdf"
           then extract_text_from_pdf env.pdfRead
           else extract_text_from_image env.ocr) with
    | .error e => (.error e, [.textExtraction])
    | .ok extracted_text =>
      if pyStrip extracted_text = "" then (.error .emptyText, [.textExtraction])
      else
        match analyze_document_with_openai env extracted_text with
        | .error e => (.error e, [.textExtraction, .fieldExtraction])
        | .ok analysis_result =>
          (.ok { effective_date := analysis_result.effective_date
               , insured_party := analysis_result.insured_party
               , underwriter := analysis_result.underwriter
               , legal_description := analysis_result.legal_description
               , exceptions := analysis_result.exceptions
               , policy_amount := analysis_result.policy_amount
               , compliance_notes := generate_compliance_notes analysis_result
               , processing_status := "completed" },
           [.textExtraction, .fieldExtraction])

/-- Model of `analyze_document` (`server.py` lines 180-243): size guard first, then
the rest of the pipeline.  `size` is the transport-declared byte length
(`file.size`, possibly `None`). -/
def analyze_document (size : Option Nat) (content_type : String) (env : Env) :
    Except ApiError DocumentAnalysisResult × List PipelineCall :=
  if sizeExceeds size then (.error .sizeLimit, [])
  else afterSizeCheck content_type env

/-! ## Concrete scenario instruments

A reusable concrete `Env` for witnesses.  Its `jsonParse` agrees with
`json.loads` on every string these scenarios feed it: `"{}"` is the empty
JSON object, whose `.get` lookups all return `None` (hence
`nullFieldMap`); no other string occurring in the scenarios is valid
JSON. -/

/-- A concrete environment: a one-page PDF, OCR text, an API key, a
service that replies with the empty JSON object, and `json.loads`
restricted as described above. -/
def scenarioEnv : Env :=
  { pdfRead := Except.ok ["Title insurance policy page one"]
  , ocr := Except.ok "scanned document text"
  , hasApiKey := true
  , llm := fun _ => Except.ok "{}"
  , jsonParse := fun s => if s == "{}" then some nullFieldMap else none }

/-- Variant of `scenarioEnv` with a service reply that is prose wrapping a brace
pair whose content is not valid JSON. -/
def malformedReplyEnv : Env :=
  { scenarioEnv with llm := fun _ => Except.ok "prose {x} prose" }

/-- Variant of `scenarioEnv` with a service reply that is plain prose with no brace
pair at all. -/
def proseReplyEnv : Env :=
  { scenarioEnv with llm := fun _ => Except.ok "plain prose reply" }

/-- Variant of `scenarioEnv` with a PDF whose single page extracts to a lone space,
so the extracted text is whitespace only. -/
def blankPdfEnv : Env :=
  { scenarioEnv with pdfRead := Except.ok [" "] }

/-! ## Small facts about the primitives -/

theorem pyTruthy_none : pyTruthy none = false := rfl

theorem pyTruthy_some_empty : pyTruthy (some "") = false := by decide

/-- The imperative accumulator of the source equals the rule-list form. -/
theorem generate_eq_ruleNotes (m : RawFieldMap) :
    generate_compliance_notes m = complianceRuleNotes m := by
  unfold generate_compliance_notes complianceRuleNotes
  by_cases h1 : pyTruthy m.effective_date <;>
    by_cases h2 : pyTruthy m.policy_amount <;>
      by_cases h3 : pyTruthy m.legal_description <;>
        by_cases h4 : pyTruthy m.exceptions <;>
          by_cases h5 : pyTruthy m.underwriter <;>
            simp [h1, h2, h3, h4, h5]

/-- A text all of whose characters are whitespace strips to the empty
string. -/
theorem pyStrip_eq_empty_of_all_space (t : String)
    (h : t.toList.all pyIsSpace = true) : pyStrip t = "" := by
  unfold pyStrip
  have h1 : t.toList.dropWhile pyIsSpace = [] := by
    rw [List.dropWhile_eq_nil_iff]
    exact fun x hx => List.all_eq_true.mp h x hx
  rw [h1]
  rfl

/-- The function `extract_text_from_pdf` fails only with the PDF-extraction error. -/
theorem extract_pdf_error_classified (pr : Except Unit (List String))
    (e : ApiError) (h : extract_text_from_pdf pr = .error e) :
    e = .pdfExtract := by
  cases pr with
  | error u => simp [extract_text_from_pdf] at h; simp [h]
  | ok pages => simp [extract_text_from_pdf] at h

/-- The function `extract_text_from_image` fails only with the image-extraction
error. -/
theorem extract_image_error_classified (ocr : Except Unit String)
    (e : ApiError) (h : extract_text_from_image ocr = .error e) :
    e = .imageExtract := by
  cases ocr with
  | error u => simp [extract_text_from_image] at h; simp [h]
  | ok text => simp [extract_text_from_image] at h

/-- The function `analyze_document_with_openai` fails only with the generic analysis
failure (HTTP 500). -/
theorem openai_error_classified (env : Env) (t : String) (e : ApiError)
    (h : analyze_document_with_openai env t = .error e) :
    e = .llmFailure := by
  unfold analyze_document_with_openai at h
  by_cases hk : env.hasApiKey <;> simp [hk] at h
  · cases hr : env.llm (mkUserMessageText t) with
    | error u => rw [hr] at h; simp at h; simp [h]
    | ok response =>
      rw [hr] at h
      simp only [] at h
      cases hp : parseLlmReply env.jsonParse response with
      | error u => rw [hp] at h; simp at h; simp [h]
      | ok r => rw [hp] at h; simp at h
  · simp [h]

/-- The pipeline after the size guard never reports the size error. -/
theorem afterSizeCheck_ne_sizeLimit (ctype : String) (env : Env) :
    (afterSizeCheck ctype env).1 ≠ Except.error ApiError.sizeLimit := by
  unfold afterSizeCheck
  by_cases hc : ctype ∉ allowed_types
  · simp [hc]
  · simp only [hc, if_false]
    cases hext : (if ctype = "application/pdf"
        then extract_text_from_pdf env.pdfRead
        else extract_text_from_image env.ocr) with
    | error e =>
      have he : e = ApiError.pdfExtract ∨ e = ApiError.imageExtract := by
        by_cases hpdf : ctype = "application/pdf"
        · rw [if_pos hpdf] at hext
          exact Or.inl (extract_pdf_error_classified _ _ hext)
        · rw [if_neg hpdf] at hext
          exact Or.inr (extract_image_error_classified _ _ hext)
      rcases he with he | he <;> simp [he]
    | ok t =>
      by_cases hs : pyStrip t = ""
      · simp [hs]
      · simp only [hs, if_false]
        cases ho : analyze_document_with_openai env t with
        | error e =>
          have := openai_error_classified env t e ho
          simp [this]
        | ok r => simp

/-- The note list always ends with the generic reviewed note and is in
particular non-empty. -/
theorem gen_notes_last (m : RawFieldMap) :
    generate_compliance_notes m ≠ []
    ∧ (generate_compliance_notes m).getLast? = some noteGeneric := by
  rw [generate_eq_ruleNotes]
  unfold complianceRuleNotes
  by_cases h1 : pyTruthy m.effective_date <;>
    by_cases h2 : pyTruthy m.policy_amount <;>
      by_cases h3 : pyTruthy m.legal_description <;>
        by_cases h4 : pyTruthy m.exceptions <;>
          by_cases h5 : pyTruthy m.underwriter <;>
            simp [h1, h2, h3, h4, h5]

/-- Folding the page-accumulator from any starting string appends the
text of each page followed by a newline. -/
theorem foldl_pages_eq (pages : List String) (acc : String) :
    pages.foldl (fun text page => text ++ page ++ "\n") acc
      = acc ++ pages.foldr (fun p r => p ++ "\n" ++ r) "" := by
  induction pages generalizing acc with
  | nil => simp
  | cons p ps ih =>
    simp only [List.foldl_cons, List.foldr_cons, ih]
    simp [String.append_assoc]

/-! ## Claim theorems -/

/-- C2: for every `RawFieldMap` `m`, `generate_compliance_notes m` equals
exactly the ordered concatenation of the six independent rules evaluated
top-to-bottom with no early exit: missing effective date, missing policy
amount and missing legal description each append their warning; exceptions
present appends the review note and otherwise the standard-coverage note;
underwriter present appends the confirmation note; the generic reviewed
note is always appended last, and the order matches this rule sequence
exactly. -/
theorem C2_notes_match_rule_list (m : RawFieldMap) :
    generate_compliance_notes m = complianceRuleNotes m :=
  generate_eq_ruleNotes m

/-- C3: for every `RawFieldMap`, the note list contains exactly one of the
exceptions-review note and the standard-coverage note — never both, never
neither. -/
theorem C3_exactly_one_exceptions_note (m : RawFieldMap) :
    (generate_compliance_notes m).count noteExceptionsReview
      + (generate_compliance_notes m).count noteStandardCoverage = 1 := by
  rw [generate_eq_ruleNotes]
  unfold complianceRuleNotes
  by_cases h1 : pyTruthy m.effective_date <;>
    by_cases h2 : pyTruthy m.policy_amount <;>
      by_cases h3 : pyTruthy m.legal_description <;>
        by_cases h4 : pyTruthy m.exceptions <;>
          by_cases h5 : pyTruthy m.underwriter <;>
            simp [h1, h2, h3, h4, h5] <;> decide

/-- C9: the function `generate_compliance_notes` distinguishes only truthy from falsy
values, not key presence: an empty-string field behaves exactly like an
absent/null field; in particular an empty-string effective date still
produces the missing-effective-date warning, and an empty-string exceptions
value produces the standard-coverage note, not the exceptions-review
note. -/
theorem C9_empty_string_is_falsy (m : RawFieldMap) :
    generate_compliance_notes { m with effective_date := some "" }
        = generate_compliance_notes { m with effective_date := none }
    ∧ generate_compliance_notes { m with insured_party := some "" }
        = generate_compliance_notes { m with insured_party := none }
    ∧ generate_compliance_notes { m with underwriter := some "" }
        = generate_compliance_notes { m with underwriter := none }
    ∧ generate_compliance_notes { m with legal_description := some "" }
        = generate_compliance_notes { m with legal_description := none }
    ∧ generate_compliance_notes { m with exceptions := some "" }
        = generate_compliance_notes { m with exceptions := none }
    ∧ generate_compliance_notes { m with policy_amount := some "" }
        = generate_compliance_notes { m with policy_amount := none }
    ∧ warnEffectiveDate ∈ generate_compliance_notes { m with effective_date := some "" }
    ∧ noteStandardCoverage ∈ generate_compliance_notes { m with exceptions := some "" }
    ∧ noteExceptionsReview ∉ generate_compliance_notes { m with exceptions := some "" } := by
  refine ⟨?_, ?_, ?_, ?_, ?_, ?_, ?_, ?_, ?_⟩ <;>
    simp only [generate_eq_ruleNotes] <;>
    unfold complianceRuleNotes <;>
    simp only [pyTruthy_none, pyTruthy_some_empty] <;>
    by_cases h1 : pyTruthy m.effective_date <;>
      by_cases h2 : pyTruthy m.policy_amount <;>
        by_cases h3 : pyTruthy m.legal_description <;>
          by_cases h4 : pyTruthy m.exceptions <;>
            by_cases h5 : pyTruthy m.underwriter <;>
              simp [h1, h2, h3, h4, h5] <;> decide

/-- Witness for C9 at the all-null map. -/
theorem C9_empty_string_is_falsy_singular :
    generate_compliance_notes { nullFieldMap with effective_date := some "" }
        = generate_compliance_notes { nullFieldMap with effective_date := none }
    ∧ generate_compliance_notes { nullFieldMap with insured_party := some "" }
        = generate_compliance_notes { nullFieldMap with insured_party := none }
    ∧ generate_compliance_notes { nullFieldMap with underwriter := some "" }
        = generate_compliance_notes { nullFieldMap with underwriter := none }
    ∧ generate_compliance_notes { nullFieldMap with legal_description := some "" }
        = generate_compliance_notes { nullFieldMap with legal_description := none }
    ∧ generate_compliance_notes { nullFieldMap with exceptions := some "" }
        = generate_compliance_notes { nullFieldMap with exceptions := none }
    ∧ generate_compliance_notes { nullFieldMap with policy_amount := some "" }
        = generate_compliance_notes { nullFieldMap with policy_amount := none }
    ∧ warnEffectiveDate ∈ generate_compliance_notes { nullFieldMap with effective_date := some "" }
    ∧ noteStandardCoverage ∈ generate_compliance_notes { nullFieldMap with exceptions := some "" }
    ∧ noteExceptionsReview ∉ generate_compliance_notes { nullFieldMap with exceptions := some "" } :=
  C9_empty_string_is_falsy nullFieldMap

/-- C1 fails on the code: with the service reply `"prose {x} prose"`,
neither the whole reply nor the located brace substring `"{x}"` is valid
JSON (so `jsonParse` returns `none` on both, as `json.loads` would), yet
the request fails with the HTTP 500 analysis error instead of returning
the all-null map: the `JSONDecodeError` raised while parsing the located
substring is not caught by the fallback branch. -/
theorem C1_counterexample :
    malformedReplyEnv.jsonParse "prose {x} prose" = none
    ∧ braceMatch "prose {x} prose" = some "{x}"
    ∧ malformedReplyEnv.jsonParse "{x}" = none
    ∧ analyze_document_with_openai malformedReplyEnv "document text"
        = Except.error ApiError.llmFailure := by
  refine ⟨rfl, by decide, rfl, rfl⟩

/-- C1 amended: if the reply does not parse directly as JSON, then when no
brace-delimited substring is located the all-null map is returned rather
than raising, but when a brace-delimited substring is located and it also
fails to parse, the request fails with the generic analysis error instead
of degrading to the all-null map. -/
theorem C1_fallback_parse (env : Env) (t response : String)
    (hkey : env.hasApiKey = true)
    (hllm : env.llm (mkUserMessageText t) = Except.ok response)
    (hdirect : env.jsonParse response = none) :
    (braceMatch response = none →
      analyze_document_with_openai env t = Except.ok nullFieldMap)
    ∧ (∀ sub, braceMatch response = some sub → env.jsonParse sub = none →
        analyze_document_with_openai env t = Except.error ApiError.llmFailure) := by
  constructor
  · intro hbrace
    unfold analyze_document_with_openai
    rw [hkey, hllm]
    simp only [Bool.not_true, Bool.false_eq_true, if_false]
    unfold parseLlmReply
    rw [hdirect, hbrace]
  · intro sub hbrace hsub
    unfold analyze_document_with_openai
    rw [hkey, hllm]
    simp only [Bool.not_true, Bool.false_eq_true, if_false]
    unfold parseLlmReply
    rw [hdirect, hbrace]
    simp only []
    rw [hsub]

/-- Witness for C1 amended, on a prose reply with no braces. -/
theorem C1_fallback_parse_singular :
    analyze_document_with_openai proseReplyEnv "document text"
      = Except.ok nullFieldMap :=
  (C1_fallback_parse proseReplyEnv "document text" "plain prose reply"
    rfl rfl rfl).1 (by decide)

/-- C4: a request that passes all validation and whose field extraction
returns a `RawFieldMap` yields an `AnalysisResult` whose six field slots
(all structurally present) each equal the corresponding `RawFieldMap`
entry, whose processing status is `"completed"`, and whose compliance-note
sequence is non-empty with the generic reviewed note last. -/
theorem C4_success_shape (size : Option Nat) (ctype : String) (env : Env)
    (t : String) (m : RawFieldMap)
    (hsize : sizeExceeds size = false)
    (htype : ctype ∈ allowed_types)
    (hextract : (if ctype = "application/pdf"
        then extract_text_from_pdf env.pdfRead
        else extract_text_from_image env.ocr) = Except.ok t)
    (hnonempty : pyStrip t ≠ "")
    (hfields : analyze_document_with_openai env t = Except.ok m) :
    analyze_document size ctype env =
      (Except.ok
        { effective_date := m.effective_date
        , insured_party := m.insured_party
        , underwriter := m.underwriter
        , legal_description := m.legal_description
        , exceptions := m.exceptions
        , policy_amount := m.policy_amount
        , compliance_notes := generate_compliance_notes m
        , processing_status := "completed" },
       [PipelineCall.textExtraction, PipelineCall.fieldExtraction])
    ∧ generate_compliance_notes m ≠ []
    ∧ (generate_compliance_notes m).getLast? = some noteGeneric := by
  refine ⟨?_, (gen_notes_last m).1, (gen_notes_last m).2⟩
  unfold analyze_document
  rw [hsize]
  simp only [Bool.false_eq_true, if_false]
  unfold afterSizeCheck
  rw [if_neg (by simp [htype])]
  rw [hextract]
  simp only []
  rw [if_neg hnonempty, hfields]

/-- Witness for C4: the concrete scenario environment with a one-page PDF
and the empty-object reply. -/
theorem C4_success_shape_singular :
    analyze_document (some 1024) "application/pdf" scenarioEnv =
      (Except.ok
        { effective_date := none
        , insured_party := none
        , underwriter := none
        , legal_description := none
        , exceptions := none
        , policy_amount := none
        , compliance_notes := generate_compliance_notes nullFieldMap
        , processing_status := "completed" },
       [PipelineCall.textExtraction, PipelineCall.fieldExtraction])
    ∧ generate_compliance_notes nullFieldMap ≠ []
    ∧ (generate_compliance_notes nullFieldMap).getLast? = some noteGeneric :=
  C4_success_shape (some 1024) "application/pdf" scenarioEnv
    "Title insurance policy page one\n" nullFieldMap
    rfl (by decide) rfl (by decide) rfl

/-- C5: a payload whose declared byte length exceeds 10 MiB is rejected
with the size error before any pipeline stage runs: the recorded call
trace is empty, so neither text extraction nor the extraction service is
invoked. -/
theorem C5_oversize_rejected_first (size : Nat) (ctype : String) (env : Env)
    (h : 10 * 1024 * 1024 < size) :
    analyze_document (some size) ctype env
      = (Except.error ApiError.sizeLimit, []) := by
  unfold analyze_document
  have hs : sizeExceeds (some size) = true := by
    simp only [sizeExceeds, Bool.and_eq_true, bne_iff_ne, ne_eq,
      decide_eq_true_eq]
    omega
  rw [hs]
  rfl

/-- Witness for C5 at a declared size one byte over the bound. -/
theorem C5_oversize_rejected_first_singular :
    analyze_document (some 10485761) "application/pdf" scenarioEnv
      = (Except.error ApiError.sizeLimit, []) :=
  C5_oversize_rejected_first 10485761 "application/pdf" scenarioEnv
    (by norm_num)

/-- C6: when the extracted text consists only of whitespace (in particular
when it is empty), the request is rejected with the empty-text error after
text extraction and the field-extraction service is never invoked. -/
theorem C6_blank_text_rejected (size : Option Nat) (ctype : String)
    (env : Env) (t : String)
    (hsize : sizeExceeds size = false)
    (htype : ctype ∈ allowed_types)
    (hextract : (if ctype = "application/pdf"
        then extract_text_from_pdf env.pdfRead
        else extract_text_from_image env.ocr) = Except.ok t)
    (hblank : t.toList.all pyIsSpace = true) :
    analyze_document size ctype env
        = (Except.error ApiError.emptyText, [PipelineCall.textExtraction])
    ∧ PipelineCall.fieldExtraction ∉ (analyze_document size ctype env).2 := by
  have hmain : analyze_document size ctype env
      = (Except.error ApiError.emptyText, [PipelineCall.textExtraction]) := by
    unfold analyze_document
    rw [hsize]
    simp only [Bool.false_eq_true, if_false]
    unfold afterSizeCheck
    rw [if_neg (by simp [htype])]
    rw [hextract]
    simp only []
    rw [if_pos (pyStrip_eq_empty_of_all_space t hblank)]
  refine ⟨hmain, ?_⟩
  rw [hmain]
  decide

/-- Witness for C6: a PDF whose single page extracts to a lone space, so
the extracted text is `" \n"`. -/
theorem C6_blank_text_rejected_singular :
    analyze_document none "application/pdf" blankPdfEnv
        = (Except.error ApiError.emptyText, [PipelineCall.textExtraction])
    ∧ PipelineCall.fieldExtraction
        ∉ (analyze_document none "application/pdf" blankPdfEnv).2 :=
  C6_blank_text_rejected none "application/pdf" blankPdfEnv " \n"
    rfl (by decide) rfl (by decide)

/-- C7 fails on the code: a parseable PDF with zero pages makes the reader
succeed with an empty page list, and `extract_text_from_pdf` then returns
the empty string successfully instead of failing with the extraction
error that the claim requires for zero-page documents. -/
theorem C7_counterexample :
    extract_text_from_pdf (Except.ok ([] : List String)) = Except.ok ""
    ∧ extract_text_from_pdf (Except.ok ([] : List String))
        ≠ Except.error ApiError.pdfExtract :=
  ⟨rfl, fun h => Except.noConfusion h⟩

/-- C7 amended: the function `extract_text_from_pdf` fails with the extraction error
exactly when the underlying reader fails to parse the byte stream (e.g. a
corrupt header); whenever the reader succeeds — a zero-page document
included — it returns the per-page texts concatenated in page order, the
text of each page followed by a newline (so a zero-page document yields
the empty string, not an error). -/
theorem C7_pdf_extraction (pr : Except Unit (List String)) :
    (pr = Except.error () → extract_text_from_pdf pr = Except.error ApiError.pdfExtract)
    ∧ (∀ pages, pr = Except.ok pages →
        extract_text_from_pdf pr
          = Except.ok (pages.foldr (fun p r => p ++ "\n" ++ r) "")) := by
  constructor
  · intro h
    rw [h]
    rfl
  · intro pages h
    rw [h]
    unfold extract_text_from_pdf
    simp only []
    rw [foldl_pages_eq pages ""]
    simp

/-- Witness for C7 amended: a failing reader and a two-page document. -/
theorem C7_pdf_extraction_singular :
    extract_text_from_pdf (Except.error ()) = Except.error ApiError.pdfExtract
    ∧ extract_text_from_pdf (Except.ok ["page one", "page two"])
        = Except.ok "page one\npage two\n" := by
  constructor
  · exact (C7_pdf_extraction (Except.error ())).1 rfl
  · rw [(C7_pdf_extraction (Except.ok ["page one", "page two"])).2
      ["page one", "page two"] rfl]
    rfl

/-- C8: the user text submitted to the extraction service is the fixed
preamble followed by exactly the first 4000 characters of the extracted
text: that slice is at most 4000 characters long and is an initial
segment of the extracted text, and the truncation is performed by a total
function (no error path). -/
theorem C8_prompt_truncation (t : String) :
    mkUserMessageText t = userMessagePreamble ++ String.mk (t.toList.take 4000)
    ∧ (t.toList.take 4000).length ≤ 4000
    ∧ t.toList.take 4000 ++ t.toList.drop 4000 = t.toList := by
  refine ⟨rfl, ?_, List.take_append_drop 4000 t.toList⟩
  exact List.length_take_le 4000 t.toList

/-- C10: a missing (`None`) or zero declared size skips the 10 MiB guard
entirely — the pipeline proceeds to type validation and extraction exactly
as `afterSizeCheck` does, whatever the actual payload produces — and the
size rejection occurs precisely for a present, non-zero declared size
greater than 10 MiB. -/
theorem C10_size_guard_truthiness (ctype : String) (env : Env) :
    analyze_document none ctype env = afterSizeCheck ctype env
    ∧ analyze_document (some 0) ctype env = afterSizeCheck ctype env
    ∧ ∀ n : Nat, ((analyze_document (some n) ctype env).1
          = Except.error ApiError.sizeLimit
        ↔ (0 < n ∧ 10 * 1024 * 1024 < n)) := by
  refine ⟨rfl, rfl, ?_⟩
  intro n
  by_cases hs : sizeExceeds (some n) = true
  · have hn : 0 < n ∧ 10 * 1024 * 1024 < n := by
      simp only [sizeExceeds, Bool.and_eq_true, bne_iff_ne, ne_eq,
        decide_eq_true_eq] at hs
      omega
    unfold analyze_document
    rw [hs]
    simpa using hn
  · have hn : ¬(0 < n ∧ 10 * 1024 * 1024 < n) := by
      simp only [sizeExceeds, Bool.and_eq_true, bne_iff_ne, ne_eq,
        decide_eq_true_eq] at hs
      omega
    unfold analyze_document
    rw [Bool.not_eq_true] at hs
    rw [hs]
    simp only [Bool.false_eq_true, if_false]
    constructor
    · intro hcontra
      exact absurd hcontra (afterSizeCheck_ne_sizeLimit ctype env)
    · intro hcontra
      exact absurd hcontra hn

/-- Witness for C10: the guard is skipped for a missing size and fires at
20 MiB. -/
theorem C10_size_guard_truthiness_singular :
    analyze_document none "application/pdf" scenarioEnv
        = afterSizeCheck "application/pdf" scenarioEnv
    ∧ (analyze_document (some 20971520) "application/pdf" scenarioEnv).1
        = Except.error ApiError.sizeLimit :=
  ⟨(C10_size_guard_truthiness "application/pdf" scenarioEnv).1,
   ((C10_size_guard_truthiness "application/pdf" scenarioEnv).2.2 20971520).mpr
     (by norm_num)⟩

end DocAI
